import Mathlib

/-! The nvngx-sys helper wrappers.

A shallow embedding of the C helper layer of `nvngx-sys`
(`ngx_bindings.c`, `dx_helpers.c`, `vk_helpers.cpp`).

Every function of the layer has a body that is a single `return` of a call
into the vendor runtime.  The vendor entry points are declared in the vendor
headers pulled in by `dx_wrapper.h`, `vk_wrapper.h` and `ngx_bindings.h`;
they are not part of the sources, so the runtime is a parameter
(`Runtime σ`) and every statement about the wrappers quantifies over it.

A C call that reads and writes memory is a state transformer
`σ → NVSDK_NGX_Result × σ`, where `σ` is the whole state the call can touch
(process memory together with the runtime's private state).
-/

namespace Nvngx

/-! ## Data model -/

/-- Pointers and opaque API handles (`ID3D12GraphicsCommandList *`,
`VkDevice`, `VkCommandBuffer`, `NVSDK_NGX_Handle *`, `NVSDK_NGX_Parameter *`,
`unsigned int *`, `float *`, ...) are represented by their address. -/
abbrev Ptr := Nat

/-- Modelled from the spec: the `NVSDK_NGX_Result` enumeration is declared in
the vendor headers, which are not among the sources.  Its values here are the
success status and the closed error taxonomy of section 7 of the
specification. -/
inductive NVSDK_NGX_Result where
  | Success
  | InvalidParameter
  | UnsupportedFeature
  | ResourceCreationFailed
  | InvalidHandle
  | AlreadyDestroyed
  | BackendMismatch
  | UnsupportedResolution
  deriving DecidableEq, Repr

/-- Modelled from the spec: the `NVSDK_NGX_PerfQuality_Value` enumeration is
declared in the vendor headers, which are not among the sources.  Its values
here are the closed set of quality presets of section 3 of the
specification. -/
inductive NVSDK_NGX_PerfQuality_Value where
  | MaxPerf
  | Balanced
  | MaxQuality
  | UltraPerformance
  | UltraQuality
  | DLAA
  deriving DecidableEq, Repr

/-- The result of running a C call from a state: the returned status and the
state the call leaves behind. -/
abbrev Outcome (σ : Type) := NVSDK_NGX_Result × σ

/-- The vendor runtime entry points the helper layer calls, one field per
entry point, with the C parameter lists of the calls in the sources.
`unsigned int` arguments are naturals; pointer arguments are addresses. -/
structure Runtime (σ : Type) where
  /-- Entry point `NGX_DLSS_GET_OPTIMAL_SETTINGS(pInParams, InUserSelectedWidth,
  InUserSelectedHeight, InPerfQualityValue, pOutRenderOptimalWidth,
  pOutRenderOptimalHeight, pOutRenderMaxWidth, pOutRenderMaxHeight,
  pOutRenderMinWidth, pOutRenderMinHeight, pOutSharpness)` -/
  NGX_DLSS_GET_OPTIMAL_SETTINGS :
    Ptr → Nat → Nat → NVSDK_NGX_PerfQuality_Value →
    Ptr → Ptr → Ptr → Ptr → Ptr → Ptr → Ptr → σ → Outcome σ
  /-- Entry point `NGX_D3D12_CREATE_DLSS_EXT(pInCmdList, InCreationNodeMask,
  InVisibilityNodeMask, ppOutHandle, pInParams, pInDlssCreateParams)` -/
  NGX_D3D12_CREATE_DLSS_EXT :
    Ptr → Nat → Nat → Ptr → Ptr → Ptr → σ → Outcome σ
  /-- Entry point `NGX_D3D12_EVALUATE_DLSS_EXT(pInCmdList, pInHandle, pInParams,
  pInDlssEvalParams)` -/
  NGX_D3D12_EVALUATE_DLSS_EXT :
    Ptr → Ptr → Ptr → Ptr → σ → Outcome σ
  /-- Entry point `NGX_D3D12_CREATE_DLSSD_EXT(pInCmdList, InCreationNodeMask,
  InVisibilityNodeMask, ppOutHandle, pInParams, pInDlssDCreateParams)` -/
  NGX_D3D12_CREATE_DLSSD_EXT :
    Ptr → Nat → Nat → Ptr → Ptr → Ptr → σ → Outcome σ
  /-- Entry point `NGX_D3D12_EVALUATE_DLSSD_EXT(pInCmdList, pInHandle, pInParams,
  pInDlssDEvalParams)` -/
  NGX_D3D12_EVALUATE_DLSSD_EXT :
    Ptr → Ptr → Ptr → Ptr → σ → Outcome σ
  /-- Entry point `NGX_VULKAN_CREATE_DLSS_EXT1(InDevice, InCmdList, InCreationNodeMask,
  InVisibilityNodeMask, ppOutHandle, pInParams, pInDlssCreateParams)` -/
  NGX_VULKAN_CREATE_DLSS_EXT1 :
    Ptr → Ptr → Nat → Nat → Ptr → Ptr → Ptr → σ → Outcome σ
  /-- Entry point `NGX_VULKAN_EVALUATE_DLSS_EXT(InCmdList, pInHandle, pInParams,
  pInDlssEvalParams)` -/
  NGX_VULKAN_EVALUATE_DLSS_EXT :
    Ptr → Ptr → Ptr → Ptr → σ → Outcome σ
  /-- Entry point `NGX_VULKAN_CREATE_DLSSD_EXT1(InDevice, InCmdList, InCreationNodeMask,
  InVisibilityNodeMask, ppOutHandle, pInParams, pInDlssDCreateParams)` -/
  NGX_VULKAN_CREATE_DLSSD_EXT1 :
    Ptr → Ptr → Nat → Nat → Ptr → Ptr → Ptr → σ → Outcome σ
  /-- Entry point `NGX_VULKAN_EVALUATE_DLSSD_EXT(InCmdList, pInHandle, pInParams,
  pInDlssDEvalParams)` -/
  NGX_VULKAN_EVALUATE_DLSSD_EXT :
    Ptr → Ptr → Ptr → Ptr → σ → Outcome σ

/-! ## `ngx_bindings.c` -/

/-- Wrapper `HELPERS_NGX_DLSS_GET_OPTIMAL_SETTINGS` (`ngx_bindings.c`, lines 3-29). -/
def HELPERS_NGX_DLSS_GET_OPTIMAL_SETTINGS {σ : Type} (rt : Runtime σ)
    (pInParams : Ptr)
    (InUserSelectedWidth : Nat)
    (InUserSelectedHeight : Nat)
    (InPerfQualityValue : NVSDK_NGX_PerfQuality_Value)
    (pOutRenderOptimalWidth : Ptr)
    (pOutRenderOptimalHeight : Ptr)
    (pOutRenderMaxWidth : Ptr)
    (pOutRenderMaxHeight : Ptr)
    (pOutRenderMinWidth : Ptr)
    (pOutRenderMinHeight : Ptr)
    (pOutSharpness : Ptr) (s : σ) : Outcome σ :=
  rt.NGX_DLSS_GET_OPTIMAL_SETTINGS
    pInParams
    InUserSelectedWidth
    InUserSelectedHeight
    InPerfQualityValue
    pOutRenderOptimalWidth
    pOutRenderOptimalHeight
    pOutRenderMaxWidth
    pOutRenderMaxHeight
    pOutRenderMinWidth
    pOutRenderMinHeight
    pOutSharpness
    s

/-! ## `dx_helpers.c` -/

/-- Wrapper `HELPERS_NGX_D3D12_CREATE_DLSS_EXT` (`dx_helpers.c`, lines 3-12). -/
def HELPERS_NGX_D3D12_CREATE_DLSS_EXT {σ : Type} (rt : Runtime σ)
    (pInCmdList : Ptr)
    (InCreationNodeMask : Nat)
    (InVisibilityNodeMask : Nat)
    (ppOutHandle : Ptr)
    (pInParams : Ptr)
    (pInDlssCreateParams : Ptr) (s : σ) : Outcome σ :=
  rt.NGX_D3D12_CREATE_DLSS_EXT pInCmdList InCreationNodeMask InVisibilityNodeMask
    ppOutHandle pInParams pInDlssCreateParams s

/-- Wrapper `HELPERS_NGX_D3D12_EVALUATE_DLSS_EXT` (`dx_helpers.c`, lines 14-21). -/
def HELPERS_NGX_D3D12_EVALUATE_DLSS_EXT {σ : Type} (rt : Runtime σ)
    (pInCmdList : Ptr)
    (pInHandle : Ptr)
    (pInParams : Ptr)
    (pInDlssEvalParams : Ptr) (s : σ) : Outcome σ :=
  rt.NGX_D3D12_EVALUATE_DLSS_EXT pInCmdList pInHandle pInParams pInDlssEvalParams s

/-- Wrapper `HELPERS_NGX_D3D12_CREATE_DLSSD_EXT` (`dx_helpers.c`, lines 25-41). -/
def HELPERS_NGX_D3D12_CREATE_DLSSD_EXT {σ : Type} (rt : Runtime σ)
    (pInCmdList : Ptr)
    (InCreationNodeMask : Nat)
    (InVisibilityNodeMask : Nat)
    (ppOutHandle : Ptr)
    (pInParams : Ptr)
    (pInDlssDCreateParams : Ptr) (s : σ) : Outcome σ :=
  rt.NGX_D3D12_CREATE_DLSSD_EXT
    pInCmdList
    InCreationNodeMask
    InVisibilityNodeMask
    ppOutHandle
    pInParams
    pInDlssDCreateParams
    s

/-- Wrapper `HELPERS_NGX_D3D12_EVALUATE_DLSSD_EXT` (`dx_helpers.c`, lines 43-50). -/
def HELPERS_NGX_D3D12_EVALUATE_DLSSD_EXT {σ : Type} (rt : Runtime σ)
    (pInCmdList : Ptr)
    (pInHandle : Ptr)
    (pInParams : Ptr)
    (pInDlssDEvalParams : Ptr) (s : σ) : Outcome σ :=
  rt.NGX_D3D12_EVALUATE_DLSSD_EXT pInCmdList pInHandle pInParams pInDlssDEvalParams s

/-! ## `vk_helpers.cpp` -/

/-- Wrapper `HELPERS_NGX_VULKAN_CREATE_DLSS_EXT1` (`vk_helpers.cpp`, lines 8-26). -/
def HELPERS_NGX_VULKAN_CREATE_DLSS_EXT1 {σ : Type} (rt : Runtime σ)
    (InDevice : Ptr)
    (InCmdList : Ptr)
    (InCreationNodeMask : Nat)
    (InVisibilityNodeMask : Nat)
    (ppOutHandle : Ptr)
    (pInParams : Ptr)
    (pInDlssCreateParams : Ptr) (s : σ) : Outcome σ :=
  rt.NGX_VULKAN_CREATE_DLSS_EXT1
    InDevice
    InCmdList
    InCreationNodeMask
    InVisibilityNodeMask
    ppOutHandle
    pInParams
    pInDlssCreateParams
    s

/-- Wrapper `HELPERS_NGX_VULKAN_EVALUATE_DLSS_EXT` (`vk_helpers.cpp`, lines 28-40). -/
def HELPERS_NGX_VULKAN_EVALUATE_DLSS_EXT {σ : Type} (rt : Runtime σ)
    (InCmdList : Ptr)
    (pInHandle : Ptr)
    (pInParams : Ptr)
    (pInDlssEvalParams : Ptr) (s : σ) : Outcome σ :=
  rt.NGX_VULKAN_EVALUATE_DLSS_EXT
    InCmdList
    pInHandle
    pInParams
    pInDlssEvalParams
    s

/-- Wrapper `HELPERS_NGX_VULKAN_CREATE_DLSSD_EXT1` (`vk_helpers.cpp`, lines 43-61). -/
def HELPERS_NGX_VULKAN_CREATE_DLSSD_EXT1 {σ : Type} (rt : Runtime σ)
    (InDevice : Ptr)
    (InCmdList : Ptr)
    (InCreationNodeMask : Nat)
    (InVisibilityNodeMask : Nat)
    (ppOutHandle : Ptr)
    (pInParams : Ptr)
    (pInDlssDCreateParams : Ptr) (s : σ) : Outcome σ :=
  rt.NGX_VULKAN_CREATE_DLSSD_EXT1
    InDevice
    InCmdList
    InCreationNodeMask
    InVisibilityNodeMask
    ppOutHandle
    pInParams
    pInDlssDCreateParams
    s

/-- Wrapper `HELPERS_NGX_VULKAN_EVALUATE_DLSSD_EXT` (`vk_helpers.cpp`, lines 63-75). -/
def HELPERS_NGX_VULKAN_EVALUATE_DLSSD_EXT {σ : Type} (rt : Runtime σ)
    (InCmdList : Ptr)
    (pInHandle : Ptr)
    (pInParams : Ptr)
    (pInDlssDEvalParams : Ptr) (s : σ) : Outcome σ :=
  rt.NGX_VULKAN_EVALUATE_DLSSD_EXT
    InCmdList
    pInHandle
    pInParams
    pInDlssDEvalParams
    s

/-! ## Observing the calls that reach the runtime -/

/-- A record of one call into the vendor runtime: which entry point was
entered and the argument received at each position. -/
inductive RuntimeCall where
  | DLSS_GET_OPTIMAL_SETTINGS (pInParams : Ptr) (width height : Nat)
      (quality : NVSDK_NGX_PerfQuality_Value)
      (pOptimalWidth pOptimalHeight pMaxWidth pMaxHeight pMinWidth pMinHeight
        pSharpness : Ptr)
  | D3D12_CREATE_DLSS_EXT (pCmdList : Ptr) (creationNodeMask visibilityNodeMask : Nat)
      (ppOutHandle pInParams pCreateParams : Ptr)
  | D3D12_EVALUATE_DLSS_EXT (pCmdList pHandle pInParams pEvalParams : Ptr)
  | D3D12_CREATE_DLSSD_EXT (pCmdList : Ptr) (creationNodeMask visibilityNodeMask : Nat)
      (ppOutHandle pInParams pCreateParams : Ptr)
  | D3D12_EVALUATE_DLSSD_EXT (pCmdList pHandle pInParams pEvalParams : Ptr)
  | VULKAN_CREATE_DLSS_EXT1 (device cmdBuffer : Ptr)
      (creationNodeMask visibilityNodeMask : Nat)
      (ppOutHandle pInParams pCreateParams : Ptr)
  | VULKAN_EVALUATE_DLSS_EXT (cmdBuffer pHandle pInParams pEvalParams : Ptr)
  | VULKAN_CREATE_DLSSD_EXT1 (device cmdBuffer : Ptr)
      (creationNodeMask visibilityNodeMask : Nat)
      (ppOutHandle pInParams pCreateParams : Ptr)
  | VULKAN_EVALUATE_DLSSD_EXT (cmdBuffer pHandle pInParams pEvalParams : Ptr)
  deriving DecidableEq, Repr

/-- Run one runtime entry point and append the record of the call to the
journal kept next to the state. -/
def journal {σ : Type} (c : RuntimeCall) (f : σ → Outcome σ)
    (s : σ × List RuntimeCall) : Outcome (σ × List RuntimeCall) :=
  ((f s.1).1, ((f s.1).2, s.2 ++ [c]))

/-- The runtime `rt` with a journal: every entry point behaves as in `rt` and
additionally appends the record of the call, with the arguments it received,
to the journal. -/
def Runtime.journaled {σ : Type} (rt : Runtime σ) : Runtime (σ × List RuntimeCall) where
  NGX_DLSS_GET_OPTIMAL_SETTINGS p w h q a b c d e f g :=
    journal (.DLSS_GET_OPTIMAL_SETTINGS p w h q a b c d e f g)
      (rt.NGX_DLSS_GET_OPTIMAL_SETTINGS p w h q a b c d e f g)
  NGX_D3D12_CREATE_DLSS_EXT l cm vm o p c :=
    journal (.D3D12_CREATE_DLSS_EXT l cm vm o p c) (rt.NGX_D3D12_CREATE_DLSS_EXT l cm vm o p c)
  NGX_D3D12_EVALUATE_DLSS_EXT l h p e :=
    journal (.D3D12_EVALUATE_DLSS_EXT l h p e) (rt.NGX_D3D12_EVALUATE_DLSS_EXT l h p e)
  NGX_D3D12_CREATE_DLSSD_EXT l cm vm o p c :=
    journal (.D3D12_CREATE_DLSSD_EXT l cm vm o p c) (rt.NGX_D3D12_CREATE_DLSSD_EXT l cm vm o p c)
  NGX_D3D12_EVALUATE_DLSSD_EXT l h p e :=
    journal (.D3D12_EVALUATE_DLSSD_EXT l h p e) (rt.NGX_D3D12_EVALUATE_DLSSD_EXT l h p e)
  NGX_VULKAN_CREATE_DLSS_EXT1 d l cm vm o p c :=
    journal (.VULKAN_CREATE_DLSS_EXT1 d l cm vm o p c)
      (rt.NGX_VULKAN_CREATE_DLSS_EXT1 d l cm vm o p c)
  NGX_VULKAN_EVALUATE_DLSS_EXT l h p e :=
    journal (.VULKAN_EVALUATE_DLSS_EXT l h p e) (rt.NGX_VULKAN_EVALUATE_DLSS_EXT l h p e)
  NGX_VULKAN_CREATE_DLSSD_EXT1 d l cm vm o p c :=
    journal (.VULKAN_CREATE_DLSSD_EXT1 d l cm vm o p c)
      (rt.NGX_VULKAN_CREATE_DLSSD_EXT1 d l cm vm o p c)
  NGX_VULKAN_EVALUATE_DLSSD_EXT l h p e :=
    journal (.VULKAN_EVALUATE_DLSSD_EXT l h p e) (rt.NGX_VULKAN_EVALUATE_DLSSD_EXT l h p e)

/-! ## Parameter dictionary (specification, sections 3 and 4.1) -/

/-- Modelled from the spec: the type tags of the closed variant of dictionary
values (section 3).  The dictionary accessors live in the vendor runtime and
its binding, which are not among the sources; only the pointer type
`NVSDK_NGX_Parameter *` appears in the helper layer. -/
inductive ParamType where
  | Int32
  | UInt32
  | Float32
  | Pointer
  | ResourceHandle
  deriving DecidableEq, Repr

/-- Modelled from the spec: a tagged dictionary value (section 3), the missing
part being the value representation of `NVSDK_NGX_Parameter`.  A `Float32`
carries the IEEE-754 bit pattern of the number, so that storing and reading a
float involves no floating point arithmetic. -/
inductive ParamValue where
  | Int32 (v : Int)
  | UInt32 (v : Nat)
  | Float32 (bits : Nat)
  | Pointer (p : Ptr)
  | ResourceHandle (h : Nat)
  deriving DecidableEq, Repr

/-- Modelled from the spec: the type a stored value was written with, the
missing part being the tag kept by `NVSDK_NGX_Parameter`. -/
def ParamValue.type : ParamValue → ParamType
  | .Int32 _ => .Int32
  | .UInt32 _ => .UInt32
  | .Float32 _ => .Float32
  | .Pointer _ => .Pointer
  | .ResourceHandle _ => .ResourceHandle

/-- Modelled from the spec: the two ways a dictionary read fails (section 4.1),
the missing part being the accessor error codes of `NVSDK_NGX_Parameter`. -/
inductive DictError where
  | TypeMismatch
  | KeyNotFound
  deriving DecidableEq, Repr

/-- Modelled from the spec: a parameter dictionary is a mapping from string
keys to tagged values (section 3), the missing part being the storage of
`NVSDK_NGX_Parameter`; it is kept as a list of entries. -/
abbrev ParameterDictionary := List (String × ParamValue)

/-- Modelled from the spec: the dictionary holding no entry, the missing part
being the allocation routine of `NVSDK_NGX_Parameter`. -/
def ParameterDictionary.empty : ParameterDictionary := []

/-- Modelled from the spec: `set(key, typed value)` overwrites any existing
entry for that key (section 4.1), the missing part being the setters of
`NVSDK_NGX_Parameter`. -/
def ParameterDictionary.set : ParameterDictionary → String → ParamValue → ParameterDictionary
  | [], k, v => [(k, v)]
  | (k0, v0) :: rest, k, v =>
    if k0 = k then (k, v) :: rest else (k0, v0) :: ParameterDictionary.set rest k v

/-- Modelled from the spec: `get(key, expected type)` returns the value or
fails with TypeMismatch if the stored type differs, or KeyNotFound if absent
(section 4.1), the missing part being the getters of `NVSDK_NGX_Parameter`. -/
def ParameterDictionary.get : ParameterDictionary → String → ParamType → Except DictError ParamValue
  | [], _, _ => .error .KeyNotFound
  | (k0, v0) :: rest, k, T =>
    if k0 = k then
      (if v0.type = T then .ok v0 else .error .TypeMismatch)
    else ParameterDictionary.get rest k T

/-- Modelled from the spec: the dictionary obtained from the empty one by a
sequence of `set` calls, oldest first. -/
def ParameterDictionary.ofSets (ops : List (String × ParamValue)) : ParameterDictionary :=
  ops.foldl (fun d e => d.set e.1 e.2) ParameterDictionary.empty

/-- The bit pattern of the single precision float nearest to 0.6. -/
def float32_0_6 : Nat := 0x3F19999A

/-! ## A concrete state for worked examples -/

/-- A concrete state: word-addressed memory holding `unsigned int`, `float`
(bit pattern) and handle objects, the contents of the parameter dictionaries
by address, and the private state of the vendor runtime. -/
structure World where
  mem : Ptr → Nat
  dicts : Ptr → ParameterDictionary
  vendor : Nat

/-- Store `v` at address `p`. -/
def World.write (w : World) (p : Ptr) (v : Nat) : World :=
  { w with mem := fun q => if q = p then v else w.mem q }

/-- The state with zeroed memory, empty dictionaries and a fresh runtime. -/
def World.initial : World :=
  { mem := fun _ => 0, dicts := fun _ => ParameterDictionary.empty, vendor := 0 }

/-- A runtime whose every entry point returns the status `r` and touches
nothing. -/
def constRuntime (r : NVSDK_NGX_Result) : Runtime World where
  NGX_DLSS_GET_OPTIMAL_SETTINGS _ _ _ _ _ _ _ _ _ _ _ w := (r, w)
  NGX_D3D12_CREATE_DLSS_EXT _ _ _ _ _ _ w := (r, w)
  NGX_D3D12_EVALUATE_DLSS_EXT _ _ _ _ w := (r, w)
  NGX_D3D12_CREATE_DLSSD_EXT _ _ _ _ _ _ w := (r, w)
  NGX_D3D12_EVALUATE_DLSSD_EXT _ _ _ _ w := (r, w)
  NGX_VULKAN_CREATE_DLSS_EXT1 _ _ _ _ _ _ _ w := (r, w)
  NGX_VULKAN_EVALUATE_DLSS_EXT _ _ _ _ w := (r, w)
  NGX_VULKAN_CREATE_DLSSD_EXT1 _ _ _ _ _ _ _ w := (r, w)
  NGX_VULKAN_EVALUATE_DLSSD_EXT _ _ _ _ w := (r, w)

/-- Allocate the next handle: the runtime counts the handles it has issued in
its private state and stores the new handle in the out-slot. -/
def issueHandle (ppOutHandle : Ptr) (w : World) : Outcome World :=
  (.Success, { (w.write ppOutHandle (w.vendor + 1)) with vendor := w.vendor + 1 })

/-- Accept a handle the runtime has issued (handles are 1 .. `vendor`) and
reject any other with InvalidHandle. -/
def checkHandle (pInHandle : Ptr) (w : World) : Outcome World :=
  if 1 ≤ pInHandle ∧ pInHandle ≤ w.vendor then (.Success, w) else (.InvalidHandle, w)

/-- A runtime that issues handles on creation and, on evaluation, accepts
exactly the handles it has issued, whichever entry point issued them. -/
def handleRuntime : Runtime World :=
  { constRuntime .Success with
    NGX_D3D12_CREATE_DLSS_EXT := fun _ _ _ o _ _ w => issueHandle o w
    NGX_D3D12_CREATE_DLSSD_EXT := fun _ _ _ o _ _ w => issueHandle o w
    NGX_VULKAN_CREATE_DLSS_EXT1 := fun _ _ _ _ o _ _ w => issueHandle o w
    NGX_VULKAN_CREATE_DLSSD_EXT1 := fun _ _ _ _ o _ _ w => issueHandle o w
    NGX_D3D12_EVALUATE_DLSS_EXT := fun _ h _ _ w => checkHandle h w
    NGX_D3D12_EVALUATE_DLSSD_EXT := fun _ h _ _ w => checkHandle h w
    NGX_VULKAN_EVALUATE_DLSS_EXT := fun _ h _ _ w => checkHandle h w
    NGX_VULKAN_EVALUATE_DLSSD_EXT := fun _ h _ _ w => checkHandle h w }

/-- A runtime whose optimal-settings entry point reports success and writes
the display size to all three render sizes and zero to the sharpness. -/
def echoRuntime : Runtime World :=
  { constRuntime .Success with
    NGX_DLSS_GET_OPTIMAL_SETTINGS := fun _ width height _ a b c d e f g w =>
      (.Success,
        ((((((w.write a width).write b height).write c width).write d height).write e
          width).write f height).write g 0) }

/-- A runtime whose optimal-settings entry point reports success and writes
optimal 3 x 0, maximum 1 x 1 and minimum 5 x 7. -/
def skewedRuntime : Runtime World :=
  { constRuntime .Success with
    NGX_DLSS_GET_OPTIMAL_SETTINGS := fun _ _ _ _ a b c d e f g w =>
      (.Success,
        ((((((w.write a 3).write b 0).write c 1).write d 1).write e 5).write f 7).write g 0) }

/-- A runtime whose optimal-settings entry point counts its calls in the
private state and writes the count to the optimal width. -/
def countingRuntime : Runtime World :=
  { constRuntime .Success with
    NGX_DLSS_GET_OPTIMAL_SETTINGS := fun _ _ _ _ a _ _ _ _ _ _ w =>
      (.Success, { (w.write a w.vendor) with vendor := w.vendor + 1 }) }

/-! ## Properties of the optimal-settings outputs -/

/-- The six render dimensions of an optimal-settings result. -/
structure RenderDims where
  optimalWidth : Nat
  optimalHeight : Nat
  maxWidth : Nat
  maxHeight : Nat
  minWidth : Nat
  minHeight : Nat
  deriving DecidableEq, Repr

/-- Read the six render dimensions from their output slots. -/
def readDims (w : World) (pOptimalWidth pOptimalHeight pMaxWidth pMaxHeight pMinWidth
    pMinHeight : Ptr) : RenderDims :=
  { optimalWidth := w.mem pOptimalWidth
    optimalHeight := w.mem pOptimalHeight
    maxWidth := w.mem pMaxWidth
    maxHeight := w.mem pMaxHeight
    minWidth := w.mem pMinWidth
    minHeight := w.mem pMinHeight }

/-- The property of section 8: min ≤ optimal ≤ max ≤ device max in both
width and height, and every dimension an even integer ≥ 2. -/
def ConsistentDims (d : RenderDims) (deviceMaxWidth deviceMaxHeight : Nat) : Prop :=
  (d.minWidth ≤ d.optimalWidth ∧ d.optimalWidth ≤ d.maxWidth ∧ d.maxWidth ≤ deviceMaxWidth) ∧
  (d.minHeight ≤ d.optimalHeight ∧ d.optimalHeight ≤ d.maxHeight ∧
    d.maxHeight ≤ deviceMaxHeight) ∧
  (d.optimalWidth % 2 = 0 ∧ 2 ≤ d.optimalWidth) ∧
  (d.optimalHeight % 2 = 0 ∧ 2 ≤ d.optimalHeight) ∧
  (d.maxWidth % 2 = 0 ∧ 2 ≤ d.maxWidth) ∧
  (d.maxHeight % 2 = 0 ∧ 2 ≤ d.maxHeight) ∧
  (d.minWidth % 2 = 0 ∧ 2 ≤ d.minWidth) ∧
  (d.minHeight % 2 = 0 ∧ 2 ≤ d.minHeight)

instance (d : RenderDims) (a b : Nat) : Decidable (ConsistentDims d a b) := by
  unfold ConsistentDims
  infer_instance

/-- The signature of the optimal-settings query over the concrete state. -/
abbrev OptimalSettingsQuery :=
  Ptr → Nat → Nat → NVSDK_NGX_PerfQuality_Value →
    Ptr → Ptr → Ptr → Ptr → Ptr → Ptr → Ptr → World → Outcome World

/-- Purity of an optimal-settings query: run from two states that hold the
same contents in the parameter dictionary, with the same width, height,
preset and output slots, it returns the same status and, for each of the
seven output slots, either leaves the same value there in both runs or leaves
the slot as it was in both runs (a slot the query does not write, for example
on a failing status); and it changes nothing but the output slots (no other
memory cell, no dictionary, no runtime state). -/
def PureQuery (f : OptimalSettingsQuery) : Prop :=
  ∀ (p : Ptr) (width height : Nat) (q : NVSDK_NGX_PerfQuality_Value)
    (a b c d e g h : Ptr) (w1 w2 : World),
    w1.dicts p = w2.dicts p →
      (f p width height q a b c d e g h w1).1 = (f p width height q a b c d e g h w2).1 ∧
      (∀ slot ∈ [a, b, c, d, e, g, h],
        (f p width height q a b c d e g h w1).2.mem slot =
            (f p width height q a b c d e g h w2).2.mem slot
          ∨ ((f p width height q a b c d e g h w1).2.mem slot = w1.mem slot
              ∧ (f p width height q a b c d e g h w2).2.mem slot = w2.mem slot)) ∧
      (∀ addr, addr ∉ [a, b, c, d, e, g, h] →
        (f p width height q a b c d e g h w1).2.mem addr = w1.mem addr) ∧
      (f p width height q a b c d e g h w1).2.dicts = w1.dicts ∧
      (f p width height q a b c d e g h w1).2.vendor = w1.vendor

/-! ## The wrappers by backend and feature variant -/

/-- The two feature variants (specification, section 3). -/
inductive Variant where
  | SuperSampling
  | RayReconstruction
  deriving DecidableEq, Repr

/-- The command-list create wrapper of a variant. -/
def d3d12Create {σ : Type} (rt : Runtime σ) :
    Variant → Ptr → Nat → Nat → Ptr → Ptr → Ptr → σ → Outcome σ
  | .SuperSampling => HELPERS_NGX_D3D12_CREATE_DLSS_EXT rt
  | .RayReconstruction => HELPERS_NGX_D3D12_CREATE_DLSSD_EXT rt

/-- The command-list evaluate wrapper of a variant. -/
def d3d12Evaluate {σ : Type} (rt : Runtime σ) : Variant → Ptr → Ptr → Ptr → Ptr → σ → Outcome σ
  | .SuperSampling => HELPERS_NGX_D3D12_EVALUATE_DLSS_EXT rt
  | .RayReconstruction => HELPERS_NGX_D3D12_EVALUATE_DLSSD_EXT rt

/-- The command-buffer create wrapper of a variant. -/
def vulkanCreate {σ : Type} (rt : Runtime σ) :
    Variant → Ptr → Ptr → Nat → Nat → Ptr → Ptr → Ptr → σ → Outcome σ
  | .SuperSampling => HELPERS_NGX_VULKAN_CREATE_DLSS_EXT1 rt
  | .RayReconstruction => HELPERS_NGX_VULKAN_CREATE_DLSSD_EXT1 rt

/-- The command-buffer evaluate wrapper of a variant. -/
def vulkanEvaluate {σ : Type} (rt : Runtime σ) : Variant → Ptr → Ptr → Ptr → Ptr → σ → Outcome σ
  | .SuperSampling => HELPERS_NGX_VULKAN_EVALUATE_DLSS_EXT rt
  | .RayReconstruction => HELPERS_NGX_VULKAN_EVALUATE_DLSSD_EXT rt

/-- The runtime's command-list create entry point of a variant. -/
def Runtime.d3d12Create {σ : Type} (rt : Runtime σ) :
    Variant → Ptr → Nat → Nat → Ptr → Ptr → Ptr → σ → Outcome σ
  | .SuperSampling => rt.NGX_D3D12_CREATE_DLSS_EXT
  | .RayReconstruction => rt.NGX_D3D12_CREATE_DLSSD_EXT

/-- The runtime's command-list evaluate entry point of a variant. -/
def Runtime.d3d12Evaluate {σ : Type} (rt : Runtime σ) :
    Variant → Ptr → Ptr → Ptr → Ptr → σ → Outcome σ
  | .SuperSampling => rt.NGX_D3D12_EVALUATE_DLSS_EXT
  | .RayReconstruction => rt.NGX_D3D12_EVALUATE_DLSSD_EXT

/-- The runtime's command-buffer create entry point of a variant. -/
def Runtime.vulkanCreate {σ : Type} (rt : Runtime σ) :
    Variant → Ptr → Ptr → Nat → Nat → Ptr → Ptr → Ptr → σ → Outcome σ
  | .SuperSampling => rt.NGX_VULKAN_CREATE_DLSS_EXT1
  | .RayReconstruction => rt.NGX_VULKAN_CREATE_DLSSD_EXT1

/-- The runtime's command-buffer evaluate entry point of a variant. -/
def Runtime.vulkanEvaluate {σ : Type} (rt : Runtime σ) :
    Variant → Ptr → Ptr → Ptr → Ptr → σ → Outcome σ
  | .SuperSampling => rt.NGX_VULKAN_EVALUATE_DLSS_EXT
  | .RayReconstruction => rt.NGX_VULKAN_EVALUATE_DLSSD_EXT

/-- The journal record of a command-list create call of a variant. -/
def RuntimeCall.d3d12Create : Variant → Ptr → Nat → Nat → Ptr → Ptr → Ptr → RuntimeCall
  | .SuperSampling => .D3D12_CREATE_DLSS_EXT
  | .RayReconstruction => .D3D12_CREATE_DLSSD_EXT

/-- The journal record of a command-list evaluate call of a variant. -/
def RuntimeCall.d3d12Evaluate : Variant → Ptr → Ptr → Ptr → Ptr → RuntimeCall
  | .SuperSampling => .D3D12_EVALUATE_DLSS_EXT
  | .RayReconstruction => .D3D12_EVALUATE_DLSSD_EXT

/-- The journal record of a command-buffer create call of a variant. -/
def RuntimeCall.vulkanCreate : Variant → Ptr → Ptr → Nat → Nat → Ptr → Ptr → Ptr → RuntimeCall
  | .SuperSampling => .VULKAN_CREATE_DLSS_EXT1
  | .RayReconstruction => .VULKAN_CREATE_DLSSD_EXT1

/-- The journal record of a command-buffer evaluate call of a variant. -/
def RuntimeCall.vulkanEvaluate : Variant → Ptr → Ptr → Ptr → Ptr → RuntimeCall
  | .SuperSampling => .VULKAN_EVALUATE_DLSS_EXT
  | .RayReconstruction => .VULKAN_EVALUATE_DLSSD_EXT

/-- The handle a create call left in its out-slot. -/
def createdHandle (out : Outcome (World × List RuntimeCall)) (ppOutHandle : Ptr) : Ptr :=
  out.2.1.mem ppOutHandle

/-- The state in which the dictionary at address `p` holds the contents `d`. -/
def World.withDict (w : World) (p : Ptr) (d : ParameterDictionary) : World :=
  { w with dicts := fun q => if q = p then d else w.dicts q }

/-! ## Theorems -/

/-- C1: for every runtime, state and six arguments, the command-list create
wrappers return exactly the outcome of the runtime entry point of the same
variant called with the same six arguments in the same positions; run against
a journaled runtime, each wrapper adds exactly one record to the journal, that
of its own variant, carrying the creation node mask and the visibility node
mask in their own positions. -/
theorem d3d12_create_wrappers_forward {σ : Type} (rt : Runtime σ)
    (pInCmdList : Ptr) (InCreationNodeMask InVisibilityNodeMask : Nat)
    (ppOutHandle pInParams pInCreateParams : Ptr) (s : σ) (log : List RuntimeCall) :
    HELPERS_NGX_D3D12_CREATE_DLSS_EXT rt pInCmdList InCreationNodeMask InVisibilityNodeMask
        ppOutHandle pInParams pInCreateParams s
      = rt.NGX_D3D12_CREATE_DLSS_EXT pInCmdList InCreationNodeMask InVisibilityNodeMask
        ppOutHandle pInParams pInCreateParams s
    ∧ HELPERS_NGX_D3D12_CREATE_DLSSD_EXT rt pInCmdList InCreationNodeMask InVisibilityNodeMask
        ppOutHandle pInParams pInCreateParams s
      = rt.NGX_D3D12_CREATE_DLSSD_EXT pInCmdList InCreationNodeMask InVisibilityNodeMask
        ppOutHandle pInParams pInCreateParams s
    ∧ (HELPERS_NGX_D3D12_CREATE_DLSS_EXT rt.journaled pInCmdList InCreationNodeMask
        InVisibilityNodeMask ppOutHandle pInParams pInCreateParams (s, log)).2.2
      = log ++ [RuntimeCall.D3D12_CREATE_DLSS_EXT pInCmdList InCreationNodeMask
          InVisibilityNodeMask ppOutHandle pInParams pInCreateParams]
    ∧ (HELPERS_NGX_D3D12_CREATE_DLSSD_EXT rt.journaled pInCmdList InCreationNodeMask
        InVisibilityNodeMask ppOutHandle pInParams pInCreateParams (s, log)).2.2
      = log ++ [RuntimeCall.D3D12_CREATE_DLSSD_EXT pInCmdList InCreationNodeMask
          InVisibilityNodeMask ppOutHandle pInParams pInCreateParams] :=
  ⟨rfl, rfl, rfl, rfl⟩

/-- C2: for every runtime, state and seven arguments, the command-buffer
create wrappers return exactly the outcome of the runtime entry point of the
same variant called with the same seven arguments in the same positions; run
against a journaled runtime, each wrapper adds exactly one record to the
journal, that of its own variant, with the device handle first, the command
buffer second and the two node masks unchanged in the third and fourth
positions. -/
theorem vulkan_create_wrappers_forward {σ : Type} (rt : Runtime σ)
    (InDevice InCmdList : Ptr) (InCreationNodeMask InVisibilityNodeMask : Nat)
    (ppOutHandle pInParams pInCreateParams : Ptr) (s : σ) (log : List RuntimeCall) :
    HELPERS_NGX_VULKAN_CREATE_DLSS_EXT1 rt InDevice InCmdList InCreationNodeMask
        InVisibilityNodeMask ppOutHandle pInParams pInCreateParams s
      = rt.NGX_VULKAN_CREATE_DLSS_EXT1 InDevice InCmdList InCreationNodeMask
        InVisibilityNodeMask ppOutHandle pInParams pInCreateParams s
    ∧ HELPERS_NGX_VULKAN_CREATE_DLSSD_EXT1 rt InDevice InCmdList InCreationNodeMask
        InVisibilityNodeMask ppOutHandle pInParams pInCreateParams s
      = rt.NGX_VULKAN_CREATE_DLSSD_EXT1 InDevice InCmdList InCreationNodeMask
        InVisibilityNodeMask ppOutHandle pInParams pInCreateParams s
    ∧ (HELPERS_NGX_VULKAN_CREATE_DLSS_EXT1 rt.journaled InDevice InCmdList InCreationNodeMask
        InVisibilityNodeMask ppOutHandle pInParams pInCreateParams (s, log)).2.2
      = log ++ [RuntimeCall.VULKAN_CREATE_DLSS_EXT1 InDevice InCmdList InCreationNodeMask
          InVisibilityNodeMask ppOutHandle pInParams pInCreateParams]
    ∧ (HELPERS_NGX_VULKAN_CREATE_DLSSD_EXT1 rt.journaled InDevice InCmdList
        InCreationNodeMask InVisibilityNodeMask ppOutHandle pInParams pInCreateParams
        (s, log)).2.2
      = log ++ [RuntimeCall.VULKAN_CREATE_DLSSD_EXT1 InDevice InCmdList InCreationNodeMask
          InVisibilityNodeMask ppOutHandle pInParams pInCreateParams] :=
  ⟨rfl, rfl, rfl, rfl⟩

/-- C3: for every runtime, state, recording context, feature handle, parameter
dictionary and evaluation-params descriptor, each of the four evaluate
wrappers returns exactly the outcome (status and resulting state) of the
runtime evaluate entry point of the same backend and variant applied to the
same four arguments; run against a journaled runtime, each wrapper adds
exactly one record to the journal, that of its own backend and variant, with
the four arguments in the same order. -/
theorem evaluate_wrappers_forward {σ : Type} (rt : Runtime σ)
    (ctx pInHandle pInParams pInEvalParams : Ptr) (s : σ) (log : List RuntimeCall) :
    (HELPERS_NGX_D3D12_EVALUATE_DLSS_EXT rt ctx pInHandle pInParams pInEvalParams s
        = rt.NGX_D3D12_EVALUATE_DLSS_EXT ctx pInHandle pInParams pInEvalParams s
      ∧ HELPERS_NGX_D3D12_EVALUATE_DLSSD_EXT rt ctx pInHandle pInParams pInEvalParams s
        = rt.NGX_D3D12_EVALUATE_DLSSD_EXT ctx pInHandle pInParams pInEvalParams s
      ∧ HELPERS_NGX_VULKAN_EVALUATE_DLSS_EXT rt ctx pInHandle pInParams pInEvalParams s
        = rt.NGX_VULKAN_EVALUATE_DLSS_EXT ctx pInHandle pInParams pInEvalParams s
      ∧ HELPERS_NGX_VULKAN_EVALUATE_DLSSD_EXT rt ctx pInHandle pInParams pInEvalParams s
        = rt.NGX_VULKAN_EVALUATE_DLSSD_EXT ctx pInHandle pInParams pInEvalParams s)
    ∧ ((HELPERS_NGX_D3D12_EVALUATE_DLSS_EXT rt.journaled ctx pInHandle pInParams
          pInEvalParams (s, log)).2.2
        = log ++ [RuntimeCall.D3D12_EVALUATE_DLSS_EXT ctx pInHandle pInParams pInEvalParams]
      ∧ (HELPERS_NGX_D3D12_EVALUATE_DLSSD_EXT rt.journaled ctx pInHandle pInParams
          pInEvalParams (s, log)).2.2
        = log ++ [RuntimeCall.D3D12_EVALUATE_DLSSD_EXT ctx pInHandle pInParams pInEvalParams]
      ∧ (HELPERS_NGX_VULKAN_EVALUATE_DLSS_EXT rt.journaled ctx pInHandle pInParams
          pInEvalParams (s, log)).2.2
        = log ++ [RuntimeCall.VULKAN_EVALUATE_DLSS_EXT ctx pInHandle pInParams pInEvalParams]
      ∧ (HELPERS_NGX_VULKAN_EVALUATE_DLSSD_EXT rt.journaled ctx pInHandle pInParams
          pInEvalParams (s, log)).2.2
        = log ++ [RuntimeCall.VULKAN_EVALUATE_DLSSD_EXT ctx pInHandle pInParams
            pInEvalParams]) :=
  ⟨⟨rfl, rfl, rfl, rfl⟩, ⟨rfl, rfl, rfl, rfl⟩⟩

/-- C10: for every runtime, state, parameter dictionary, display width and
height, quality preset and seven output slots, the optimal-settings wrapper
returns the status of the runtime entry point and leaves exactly the state
that the runtime entry point leaves (so every output slot, and every other
cell, holds what the runtime wrote or left there, also on a failing status);
run against a journaled runtime it adds exactly one record to the journal,
with the eleven arguments in their own positions. -/
theorem optimal_settings_wrapper_forwards {σ : Type} (rt : Runtime σ)
    (pInParams : Ptr) (InUserSelectedWidth InUserSelectedHeight : Nat)
    (InPerfQualityValue : NVSDK_NGX_PerfQuality_Value)
    (pOutRenderOptimalWidth pOutRenderOptimalHeight pOutRenderMaxWidth pOutRenderMaxHeight
      pOutRenderMinWidth pOutRenderMinHeight pOutSharpness : Ptr)
    (s : σ) (log : List RuntimeCall) :
    (HELPERS_NGX_DLSS_GET_OPTIMAL_SETTINGS rt pInParams InUserSelectedWidth
        InUserSelectedHeight InPerfQualityValue pOutRenderOptimalWidth pOutRenderOptimalHeight
        pOutRenderMaxWidth pOutRenderMaxHeight pOutRenderMinWidth pOutRenderMinHeight
        pOutSharpness s).1
      = (rt.NGX_DLSS_GET_OPTIMAL_SETTINGS pInParams InUserSelectedWidth
        InUserSelectedHeight InPerfQualityValue pOutRenderOptimalWidth pOutRenderOptimalHeight
        pOutRenderMaxWidth pOutRenderMaxHeight pOutRenderMinWidth pOutRenderMinHeight
        pOutSharpness s).1
    ∧ (HELPERS_NGX_DLSS_GET_OPTIMAL_SETTINGS rt pInParams InUserSelectedWidth
        InUserSelectedHeight InPerfQualityValue pOutRenderOptimalWidth pOutRenderOptimalHeight
        pOutRenderMaxWidth pOutRenderMaxHeight pOutRenderMinWidth pOutRenderMinHeight
        pOutSharpness s).2
      = (rt.NGX_DLSS_GET_OPTIMAL_SETTINGS pInParams InUserSelectedWidth
        InUserSelectedHeight InPerfQualityValue pOutRenderOptimalWidth pOutRenderOptimalHeight
        pOutRenderMaxWidth pOutRenderMaxHeight pOutRenderMinWidth pOutRenderMinHeight
        pOutSharpness s).2
    ∧ (HELPERS_NGX_DLSS_GET_OPTIMAL_SETTINGS rt.journaled pInParams InUserSelectedWidth
        InUserSelectedHeight InPerfQualityValue pOutRenderOptimalWidth pOutRenderOptimalHeight
        pOutRenderMaxWidth pOutRenderMaxHeight pOutRenderMinWidth pOutRenderMinHeight
        pOutSharpness (s, log)).2.2
      = log ++ [RuntimeCall.DLSS_GET_OPTIMAL_SETTINGS pInParams InUserSelectedWidth
          InUserSelectedHeight InPerfQualityValue pOutRenderOptimalWidth
          pOutRenderOptimalHeight pOutRenderMaxWidth pOutRenderMaxHeight pOutRenderMinWidth
          pOutRenderMinHeight pOutSharpness] :=
  ⟨rfl, rfl, rfl⟩

/-! ### Optimal settings: consistency of the dimensions -/

/-- C4, counterexample: with display 1920 x 1080 inside the device limit
3840 x 2160 and preset Balanced, against a runtime that reports success and
writes optimal 3 x 0, maximum 1 x 1, minimum 5 x 7, the wrapper reports success
and the slots hold exactly those values: the ordering fails and there are odd
and zero dimensions. -/
theorem optimal_settings_dims_counterexample :
    (1920 ≤ 3840 ∧ 1080 ≤ 2160)
    ∧ (HELPERS_NGX_DLSS_GET_OPTIMAL_SETTINGS skewedRuntime 10 1920 1080 .Balanced
        100 101 102 103 104 105 106 World.initial).1 = .Success
    ∧ readDims (HELPERS_NGX_DLSS_GET_OPTIMAL_SETTINGS skewedRuntime 10 1920 1080 .Balanced
        100 101 102 103 104 105 106 World.initial).2 100 101 102 103 104 105
      = { optimalWidth := 3, optimalHeight := 0, maxWidth := 1, maxHeight := 1,
          minWidth := 5, minHeight := 7 }
    ∧ ¬ ConsistentDims
        (readDims (HELPERS_NGX_DLSS_GET_OPTIMAL_SETTINGS skewedRuntime 10 1920 1080 .Balanced
          100 101 102 103 104 105 106 World.initial).2 100 101 102 103 104 105)
        3840 2160 := by
  refine ⟨by decide, by decide, by decide, by decide⟩

/-- C4, amended: for every runtime, state, preset, display size, output slots
and device maximum, the query through the wrapper returns the status of the
runtime entry point and leaves exactly the state the runtime entry point
leaves, so the six dimension slots hold exactly the values the runtime wrote
(nothing is rounded, clamped or replaced); hence the dimensions left by the
wrapper satisfy min ≤ optimal ≤ max ≤ device max with every dimension even
and ≥ 2 exactly when the dimensions written by the runtime do. -/
theorem optimal_settings_dims_follow_runtime (rt : Runtime World)
    (pInParams : Ptr) (width height : Nat) (quality : NVSDK_NGX_PerfQuality_Value)
    (pOW pOH pMaxW pMaxH pMinW pMinH pSharp : Ptr) (deviceMaxWidth deviceMaxHeight : Nat)
    (w : World) :
    HELPERS_NGX_DLSS_GET_OPTIMAL_SETTINGS rt pInParams width height quality
        pOW pOH pMaxW pMaxH pMinW pMinH pSharp w
      = rt.NGX_DLSS_GET_OPTIMAL_SETTINGS pInParams width height quality
        pOW pOH pMaxW pMaxH pMinW pMinH pSharp w
    ∧ readDims (HELPERS_NGX_DLSS_GET_OPTIMAL_SETTINGS rt pInParams width height quality
        pOW pOH pMaxW pMaxH pMinW pMinH pSharp w).2 pOW pOH pMaxW pMaxH pMinW pMinH
      = readDims (rt.NGX_DLSS_GET_OPTIMAL_SETTINGS pInParams width height quality
        pOW pOH pMaxW pMaxH pMinW pMinH pSharp w).2 pOW pOH pMaxW pMaxH pMinW pMinH
    ∧ (((HELPERS_NGX_DLSS_GET_OPTIMAL_SETTINGS rt pInParams width height quality
            pOW pOH pMaxW pMaxH pMinW pMinH pSharp w).1 = .Success
          ∧ ConsistentDims
              (readDims (HELPERS_NGX_DLSS_GET_OPTIMAL_SETTINGS rt pInParams width height
                quality pOW pOH pMaxW pMaxH pMinW pMinH pSharp w).2
                pOW pOH pMaxW pMaxH pMinW pMinH)
              deviceMaxWidth deviceMaxHeight)
        ↔ ((rt.NGX_DLSS_GET_OPTIMAL_SETTINGS pInParams width height quality
            pOW pOH pMaxW pMaxH pMinW pMinH pSharp w).1 = .Success
          ∧ ConsistentDims
              (readDims (rt.NGX_DLSS_GET_OPTIMAL_SETTINGS pInParams width height quality
                pOW pOH pMaxW pMaxH pMinW pMinH pSharp w).2 pOW pOH pMaxW pMaxH pMinW pMinH)
              deviceMaxWidth deviceMaxHeight)) :=
  ⟨rfl, rfl, Iff.rfl⟩

/-- C4, witness: the runtime that writes the display size 1920 x 1080 to all
three render sizes succeeds with dimensions consistent for the device maximum
3840 x 2160, and so does the query through the wrapper against it. -/
theorem optimal_settings_dims_follow_runtime_witness :
    (HELPERS_NGX_DLSS_GET_OPTIMAL_SETTINGS echoRuntime 10 1920 1080 .DLAA
        100 101 102 103 104 105 106 World.initial).1 = .Success
    ∧ ConsistentDims
        (readDims (HELPERS_NGX_DLSS_GET_OPTIMAL_SETTINGS echoRuntime 10 1920 1080 .DLAA
          100 101 102 103 104 105 106 World.initial).2 100 101 102 103 104 105)
        3840 2160 :=
  (optimal_settings_dims_follow_runtime echoRuntime 10 1920 1080 .DLAA
    100 101 102 103 104 105 106 3840 2160 World.initial).2.2.mpr ⟨by decide, by decide⟩

/-! ### Optimal settings: purity -/

/-- The optimal-settings entry point of `echoRuntime` is pure. -/
theorem echoRuntime_pure : PureQuery echoRuntime.NGX_DLSS_GET_OPTIMAL_SETTINGS := by
  intro p width height q a b c d e g h w1 w2 _
  refine ⟨rfl, ?_, ?_, rfl, rfl⟩
  · intro slot hs
    left
    simp only [List.mem_cons, List.mem_singleton, List.not_mem_nil, or_false] at hs
    simp only [echoRuntime, World.write]
    rcases hs with rfl | rfl | rfl | rfl | rfl | rfl | rfl <;> simp
  · intro addr hs
    simp only [List.mem_cons, List.mem_singleton, List.not_mem_nil, or_false, not_or] at hs
    obtain ⟨h1, h2, h3, h4, h5, h6, h7⟩ := hs
    simp [echoRuntime, World.write, h1, h2, h3, h4, h5, h6, h7]

/-- An optimal-settings entry point that returns a fixed status and writes
nothing is pure. -/
theorem constRuntime_pure (r : NVSDK_NGX_Result) :
    PureQuery (constRuntime r).NGX_DLSS_GET_OPTIMAL_SETTINGS := by
  intro p width height q a b c d e g h w1 w2 _
  exact ⟨rfl, fun _ _ => Or.inr ⟨rfl, rfl⟩, fun _ _ => rfl, rfl, rfl⟩

/-- C5, counterexample: against a runtime that counts its calls, two
successive calls of the wrapper with the same width, height, preset, output
slots and dictionary contents leave different values (0, then 1) in the
optimal-width slot, and the first call changes the runtime state, which is
not an output slot; so the query through the wrapper is not pure. -/
theorem optimal_settings_purity_counterexample :
    (HELPERS_NGX_DLSS_GET_OPTIMAL_SETTINGS countingRuntime 10 1920 1080 .Balanced
        100 101 102 103 104 105 106 World.initial).2.dicts 10 = World.initial.dicts 10
    ∧ (HELPERS_NGX_DLSS_GET_OPTIMAL_SETTINGS countingRuntime 10 1920 1080 .Balanced
        100 101 102 103 104 105 106 World.initial).2.mem 100 = 0
    ∧ (HELPERS_NGX_DLSS_GET_OPTIMAL_SETTINGS countingRuntime 10 1920 1080 .Balanced
        100 101 102 103 104 105 106
        (HELPERS_NGX_DLSS_GET_OPTIMAL_SETTINGS countingRuntime 10 1920 1080 .Balanced
          100 101 102 103 104 105 106 World.initial).2).2.mem 100 = 1
    ∧ World.initial.vendor = 0
    ∧ (HELPERS_NGX_DLSS_GET_OPTIMAL_SETTINGS countingRuntime 10 1920 1080 .Balanced
        100 101 102 103 104 105 106 World.initial).2.vendor = 1
    ∧ ¬ PureQuery (HELPERS_NGX_DLSS_GET_OPTIMAL_SETTINGS countingRuntime) := by
  refine ⟨rfl, by decide, by decide, rfl, rfl, ?_⟩
  intro h
  have h5 := (h 10 1920 1080 .Balanced 100 101 102 103 104 105 106
    World.initial World.initial rfl).2.2.2.2
  exact absurd h5 (by decide)

/-- C5, amended: the wrapper adds no state and no input of its own.  For every
runtime, the query through the wrapper has, on all arguments and from every
state, exactly the outcome of the runtime entry point (its status, and the
state it leaves, hence the seven outputs and every state change); so the
query through the wrapper is pure exactly when the runtime entry point is
pure (same status and same outputs from the same width, height, preset and
dictionary contents; nothing changed but the output slots). -/
theorem optimal_settings_pure_of_runtime (rt : Runtime World) :
    (∀ (pInParams : Ptr) (width height : Nat) (quality : NVSDK_NGX_PerfQuality_Value)
        (pOW pOH pMaxW pMaxH pMinW pMinH pSharp : Ptr) (w : World),
        HELPERS_NGX_DLSS_GET_OPTIMAL_SETTINGS rt pInParams width height quality
            pOW pOH pMaxW pMaxH pMinW pMinH pSharp w
          = rt.NGX_DLSS_GET_OPTIMAL_SETTINGS pInParams width height quality
            pOW pOH pMaxW pMaxH pMinW pMinH pSharp w)
    ∧ (PureQuery (HELPERS_NGX_DLSS_GET_OPTIMAL_SETTINGS rt)
        ↔ PureQuery rt.NGX_DLSS_GET_OPTIMAL_SETTINGS) :=
  ⟨fun _ _ _ _ _ _ _ _ _ _ _ _ => rfl, Iff.rfl⟩

/-- C5, witness: the runtime that echoes the display size is pure, and so is
the query through the wrapper against it. -/
theorem optimal_settings_pure_of_runtime_witness :
    PureQuery echoRuntime.NGX_DLSS_GET_OPTIMAL_SETTINGS
    ∧ PureQuery (HELPERS_NGX_DLSS_GET_OPTIMAL_SETTINGS echoRuntime) :=
  ⟨echoRuntime_pure, (optimal_settings_pure_of_runtime echoRuntime).2.mpr echoRuntime_pure⟩

/-! ### Handles and backends -/

/-- C6, counterexample: against a runtime that accepts every handle it has
issued, a Super Sampling handle created through the command-list create
wrapper (handle 1, left in slot 200) and evaluated through the command-buffer
evaluate wrapper gives Success, not BackendMismatch, and the evaluate request
is the second call in the runtime's journal; likewise for a handle created
through the command-buffer create wrapper and evaluated through the
command-list evaluate wrapper. -/
theorem backend_mismatch_counterexample :
    (HELPERS_NGX_D3D12_CREATE_DLSS_EXT handleRuntime.journaled 1 1 1 200 10 20
        (World.initial, [])).1 = .Success
    ∧ createdHandle (HELPERS_NGX_D3D12_CREATE_DLSS_EXT handleRuntime.journaled 1 1 1 200 10 20
        (World.initial, [])) 200 = 1
    ∧ (HELPERS_NGX_VULKAN_EVALUATE_DLSS_EXT handleRuntime.journaled 2 1 10 30
        (HELPERS_NGX_D3D12_CREATE_DLSS_EXT handleRuntime.journaled 1 1 1 200 10 20
          (World.initial, [])).2).1 = .Success
    ∧ (HELPERS_NGX_VULKAN_EVALUATE_DLSS_EXT handleRuntime.journaled 2 1 10 30
        (HELPERS_NGX_D3D12_CREATE_DLSS_EXT handleRuntime.journaled 1 1 1 200 10 20
          (World.initial, [])).2).2.2
      = [RuntimeCall.D3D12_CREATE_DLSS_EXT 1 1 1 200 10 20,
         RuntimeCall.VULKAN_EVALUATE_DLSS_EXT 2 1 10 30]
    ∧ (HELPERS_NGX_VULKAN_CREATE_DLSS_EXT1 handleRuntime.journaled 3 2 1 1 200 10 20
        (World.initial, [])).1 = .Success
    ∧ createdHandle (HELPERS_NGX_VULKAN_CREATE_DLSS_EXT1 handleRuntime.journaled 3 2 1 1 200 10
        20 (World.initial, [])) 200 = 1
    ∧ (HELPERS_NGX_D3D12_EVALUATE_DLSS_EXT handleRuntime.journaled 1 1 10 30
        (HELPERS_NGX_VULKAN_CREATE_DLSS_EXT1 handleRuntime.journaled 3 2 1 1 200 10 20
          (World.initial, [])).2).1 = .Success
    ∧ (HELPERS_NGX_D3D12_EVALUATE_DLSS_EXT handleRuntime.journaled 1 1 10 30
        (HELPERS_NGX_VULKAN_CREATE_DLSS_EXT1 handleRuntime.journaled 3 2 1 1 200 10 20
          (World.initial, [])).2).2.2
      = [RuntimeCall.VULKAN_CREATE_DLSS_EXT1 3 2 1 1 200 10 20,
         RuntimeCall.D3D12_EVALUATE_DLSS_EXT 1 1 10 30] := by
  refine ⟨by decide, by decide, by decide, by decide, by decide, by decide, by decide,
    by decide⟩

/-- C6, amended: the evaluate wrappers make no backend check.  For every
runtime and every handle left in the out-slot by a command-list create
wrapper, either command-buffer evaluate wrapper hands that handle to the
runtime's command-buffer evaluate entry point of its variant (the journal
gains the create record followed by the evaluate record) and returns that
entry point's status; and symmetrically for a handle created through a
command-buffer create wrapper and evaluated through a command-list evaluate
wrapper. -/
theorem evaluate_forwards_across_backends (rt : Runtime World) (cv ev : Variant)
    (pCmdList device cmdBuffer : Ptr) (cm vm : Nat)
    (ppOutHandle pCreateDict pCreate pEvalDict pEval : Ptr)
    (w : World) (log : List RuntimeCall) :
    ((vulkanEvaluate rt.journaled ev cmdBuffer
          (createdHandle (d3d12Create rt.journaled cv pCmdList cm vm ppOutHandle pCreateDict
            pCreate (w, log)) ppOutHandle)
          pEvalDict pEval
          (d3d12Create rt.journaled cv pCmdList cm vm ppOutHandle pCreateDict pCreate
            (w, log)).2).1
        = (rt.vulkanEvaluate ev cmdBuffer
            ((rt.d3d12Create cv pCmdList cm vm ppOutHandle pCreateDict pCreate w).2.mem
              ppOutHandle)
            pEvalDict pEval
            (rt.d3d12Create cv pCmdList cm vm ppOutHandle pCreateDict pCreate w).2).1
      ∧ (vulkanEvaluate rt.journaled ev cmdBuffer
          (createdHandle (d3d12Create rt.journaled cv pCmdList cm vm ppOutHandle pCreateDict
            pCreate (w, log)) ppOutHandle)
          pEvalDict pEval
          (d3d12Create rt.journaled cv pCmdList cm vm ppOutHandle pCreateDict pCreate
            (w, log)).2).2.2
        = log ++ [RuntimeCall.d3d12Create cv pCmdList cm vm ppOutHandle pCreateDict pCreate]
            ++ [RuntimeCall.vulkanEvaluate ev cmdBuffer
                  ((rt.d3d12Create cv pCmdList cm vm ppOutHandle pCreateDict pCreate w).2.mem
                    ppOutHandle)
                  pEvalDict pEval])
    ∧ ((d3d12Evaluate rt.journaled ev pCmdList
          (createdHandle (vulkanCreate rt.journaled cv device cmdBuffer cm vm ppOutHandle
            pCreateDict pCreate (w, log)) ppOutHandle)
          pEvalDict pEval
          (vulkanCreate rt.journaled cv device cmdBuffer cm vm ppOutHandle pCreateDict pCreate
            (w, log)).2).1
        = (rt.d3d12Evaluate ev pCmdList
            ((rt.vulkanCreate cv device cmdBuffer cm vm ppOutHandle pCreateDict pCreate w).2.mem
              ppOutHandle)
            pEvalDict pEval
            (rt.vulkanCreate cv device cmdBuffer cm vm ppOutHandle pCreateDict pCreate w).2).1
      ∧ (d3d12Evaluate rt.journaled ev pCmdList
          (createdHandle (vulkanCreate rt.journaled cv device cmdBuffer cm vm ppOutHandle
            pCreateDict pCreate (w, log)) ppOutHandle)
          pEvalDict pEval
          (vulkanCreate rt.journaled cv device cmdBuffer cm vm ppOutHandle pCreateDict pCreate
            (w, log)).2).2.2
        = log ++ [RuntimeCall.vulkanCreate cv device cmdBuffer cm vm ppOutHandle pCreateDict
              pCreate]
            ++ [RuntimeCall.d3d12Evaluate ev pCmdList
                  ((rt.vulkanCreate cv device cmdBuffer cm vm ppOutHandle pCreateDict pCreate
                    w).2.mem ppOutHandle)
                  pEvalDict pEval]) := by
  cases cv <;> cases ev <;> exact ⟨⟨rfl, rfl⟩, ⟨rfl, rfl⟩⟩

/-- C8, counterexample: in the initial state no create call has been made (the
journal is empty) and nothing has been destroyed; against the runtime that
answers Success to everything, each of the four evaluate wrappers called with
the handle 7 returns Success, not InvalidHandle, and the request for handle 7
is in the runtime's journal. -/
theorem invalid_handle_counterexample :
    ((HELPERS_NGX_D3D12_EVALUATE_DLSS_EXT (constRuntime .Success).journaled 1 7 10 30
        (World.initial, [])).1 = .Success
      ∧ (HELPERS_NGX_D3D12_EVALUATE_DLSS_EXT (constRuntime .Success).journaled 1 7 10 30
        (World.initial, [])).2.2 = [RuntimeCall.D3D12_EVALUATE_DLSS_EXT 1 7 10 30])
    ∧ ((HELPERS_NGX_D3D12_EVALUATE_DLSSD_EXT (constRuntime .Success).journaled 1 7 10 30
        (World.initial, [])).1 = .Success
      ∧ (HELPERS_NGX_D3D12_EVALUATE_DLSSD_EXT (constRuntime .Success).journaled 1 7 10 30
        (World.initial, [])).2.2 = [RuntimeCall.D3D12_EVALUATE_DLSSD_EXT 1 7 10 30])
    ∧ ((HELPERS_NGX_VULKAN_EVALUATE_DLSS_EXT (constRuntime .Success).journaled 2 7 10 30
        (World.initial, [])).1 = .Success
      ∧ (HELPERS_NGX_VULKAN_EVALUATE_DLSS_EXT (constRuntime .Success).journaled 2 7 10 30
        (World.initial, [])).2.2 = [RuntimeCall.VULKAN_EVALUATE_DLSS_EXT 2 7 10 30])
    ∧ ((HELPERS_NGX_VULKAN_EVALUATE_DLSSD_EXT (constRuntime .Success).journaled 2 7 10 30
        (World.initial, [])).1 = .Success
      ∧ (HELPERS_NGX_VULKAN_EVALUATE_DLSSD_EXT (constRuntime .Success).journaled 2 7 10 30
        (World.initial, [])).2.2 = [RuntimeCall.VULKAN_EVALUATE_DLSSD_EXT 2 7 10 30]) := by
  refine ⟨⟨by decide, by decide⟩, ⟨by decide, by decide⟩, ⟨by decide, by decide⟩,
    ⟨by decide, by decide⟩⟩

/-- C8, amended: the evaluate wrappers keep no record of handles.  For every
runtime, state, journal and handle value, created or not, each evaluate
wrapper of either backend and variant hands the handle to its runtime evaluate
entry point (the journal gains exactly that record) and returns exactly that
entry point's outcome, status and state; in particular it fails with
InvalidHandle exactly when that entry point returns InvalidHandle. -/
theorem evaluate_handle_check_is_the_runtimes {σ : Type} (rt : Runtime σ) (v : Variant)
    (ctx pInHandle pInParams pInEvalParams : Ptr) (s : σ) (log : List RuntimeCall) :
    (d3d12Evaluate rt v ctx pInHandle pInParams pInEvalParams s
        = rt.d3d12Evaluate v ctx pInHandle pInParams pInEvalParams s
      ∧ ((d3d12Evaluate rt v ctx pInHandle pInParams pInEvalParams s).1 = .InvalidHandle
        ↔ (rt.d3d12Evaluate v ctx pInHandle pInParams pInEvalParams s).1 = .InvalidHandle)
      ∧ d3d12Evaluate rt.journaled v ctx pInHandle pInParams pInEvalParams (s, log)
        = ((rt.d3d12Evaluate v ctx pInHandle pInParams pInEvalParams s).1,
            ((rt.d3d12Evaluate v ctx pInHandle pInParams pInEvalParams s).2,
              log ++ [RuntimeCall.d3d12Evaluate v ctx pInHandle pInParams pInEvalParams])))
    ∧ (vulkanEvaluate rt v ctx pInHandle pInParams pInEvalParams s
        = rt.vulkanEvaluate v ctx pInHandle pInParams pInEvalParams s
      ∧ ((vulkanEvaluate rt v ctx pInHandle pInParams pInEvalParams s).1 = .InvalidHandle
        ↔ (rt.vulkanEvaluate v ctx pInHandle pInParams pInEvalParams s).1 = .InvalidHandle)
      ∧ vulkanEvaluate rt.journaled v ctx pInHandle pInParams pInEvalParams (s, log)
        = ((rt.vulkanEvaluate v ctx pInHandle pInParams pInEvalParams s).1,
            ((rt.vulkanEvaluate v ctx pInHandle pInParams pInEvalParams s).2,
              log ++ [RuntimeCall.vulkanEvaluate v ctx pInHandle pInParams pInEvalParams]))) := by
  cases v <;> exact ⟨⟨rfl, Iff.rfl, rfl⟩, ⟨rfl, Iff.rfl, rfl⟩⟩

/-! ### Ray Reconstruction creation and the dictionary contents -/

/-- C7, counterexample: in the initial state the dictionary at address 10 is
empty, so it lacks every key, the normal and roughness guide-buffer keys
included; against the runtime that answers Success to everything, both Ray
Reconstruction create wrappers return Success, not InvalidParameter, and the
request is in the runtime's journal. -/
theorem missing_guide_keys_counterexample :
    World.initial.dicts 10 = []
    ∧ ((HELPERS_NGX_D3D12_CREATE_DLSSD_EXT (constRuntime .Success).journaled 1 1 1 200 10 20
        (World.initial, [])).1 = .Success
      ∧ (HELPERS_NGX_D3D12_CREATE_DLSSD_EXT (constRuntime .Success).journaled 1 1 1 200 10 20
        (World.initial, [])).2.2 = [RuntimeCall.D3D12_CREATE_DLSSD_EXT 1 1 1 200 10 20])
    ∧ ((HELPERS_NGX_VULKAN_CREATE_DLSSD_EXT1 (constRuntime .Success).journaled 3 2 1 1 200 10 20
        (World.initial, [])).1 = .Success
      ∧ (HELPERS_NGX_VULKAN_CREATE_DLSSD_EXT1 (constRuntime .Success).journaled 3 2 1 1 200 10
        20 (World.initial, [])).2.2 = [RuntimeCall.VULKAN_CREATE_DLSSD_EXT1 3 2 1 1 200 10 20]) := by
  refine ⟨rfl, ⟨by decide, by decide⟩, ⟨by decide, by decide⟩⟩

/-- C7, amended: the Ray Reconstruction create wrappers do not read the
parameter dictionary.  For every runtime, state and dictionary contents at
`pInParams`, whichever keys they hold or lack, each wrapper calls its runtime
entry point once with the same arguments (the journal gains exactly that
record), returns that entry point's outcome, and so fails with
InvalidParameter exactly when the runtime entry point returns
InvalidParameter. -/
theorem dlssd_create_ignores_dictionary (rt : Runtime World) (d : ParameterDictionary)
    (pInCmdList InDevice : Ptr) (cm vm : Nat) (ppOutHandle pInParams pCreate : Ptr)
    (w : World) (log : List RuntimeCall) :
    (HELPERS_NGX_D3D12_CREATE_DLSSD_EXT rt pInCmdList cm vm ppOutHandle pInParams pCreate
          (w.withDict pInParams d)
        = rt.NGX_D3D12_CREATE_DLSSD_EXT pInCmdList cm vm ppOutHandle pInParams pCreate
          (w.withDict pInParams d)
      ∧ ((HELPERS_NGX_D3D12_CREATE_DLSSD_EXT rt pInCmdList cm vm ppOutHandle pInParams pCreate
            (w.withDict pInParams d)).1 = .InvalidParameter
          ↔ (rt.NGX_D3D12_CREATE_DLSSD_EXT pInCmdList cm vm ppOutHandle pInParams pCreate
            (w.withDict pInParams d)).1 = .InvalidParameter)
      ∧ (HELPERS_NGX_D3D12_CREATE_DLSSD_EXT rt.journaled pInCmdList cm vm ppOutHandle pInParams
          pCreate (w.withDict pInParams d, log)).2.2
        = log ++ [RuntimeCall.D3D12_CREATE_DLSSD_EXT pInCmdList cm vm ppOutHandle pInParams
            pCreate])
    ∧ (HELPERS_NGX_VULKAN_CREATE_DLSSD_EXT1 rt InDevice pInCmdList cm vm ppOutHandle pInParams
          pCreate (w.withDict pInParams d)
        = rt.NGX_VULKAN_CREATE_DLSSD_EXT1 InDevice pInCmdList cm vm ppOutHandle pInParams
          pCreate (w.withDict pInParams d)
      ∧ ((HELPERS_NGX_VULKAN_CREATE_DLSSD_EXT1 rt InDevice pInCmdList cm vm ppOutHandle
            pInParams pCreate (w.withDict pInParams d)).1 = .InvalidParameter
          ↔ (rt.NGX_VULKAN_CREATE_DLSSD_EXT1 InDevice pInCmdList cm vm ppOutHandle pInParams
            pCreate (w.withDict pInParams d)).1 = .InvalidParameter)
      ∧ (HELPERS_NGX_VULKAN_CREATE_DLSSD_EXT1 rt.journaled InDevice pInCmdList cm vm
          ppOutHandle pInParams pCreate (w.withDict pInParams d, log)).2.2
        = log ++ [RuntimeCall.VULKAN_CREATE_DLSSD_EXT1 InDevice pInCmdList cm vm ppOutHandle
            pInParams pCreate]) :=
  ⟨⟨rfl, Iff.rfl, rfl⟩, ⟨rfl, Iff.rfl, rfl⟩⟩

/-! ### Parameter dictionary -/

/-- Reading the key just written: the value when the expected type is the
stored one, TypeMismatch otherwise. -/
theorem ParameterDictionary.get_set_same (d : ParameterDictionary) (k : String)
    (v : ParamValue) (T : ParamType) :
    (d.set k v).get k T = if v.type = T then .ok v else .error .TypeMismatch := by
  induction d with
  | nil => simp [ParameterDictionary.set, ParameterDictionary.get]
  | cons e rest ih =>
    obtain ⟨k0, v0⟩ := e
    by_cases hk : k0 = k
    · simp [ParameterDictionary.set, ParameterDictionary.get, hk]
    · simp [ParameterDictionary.set, ParameterDictionary.get, hk, ih]

/-- Writing one key leaves the reads of every other key as they were. -/
theorem ParameterDictionary.get_set_other (d : ParameterDictionary) (k0 k : String)
    (v : ParamValue) (T : ParamType) (hne : k0 ≠ k) :
    (d.set k0 v).get k T = d.get k T := by
  induction d with
  | nil => simp [ParameterDictionary.set, ParameterDictionary.get, hne]
  | cons e rest ih =>
    obtain ⟨k1, v1⟩ := e
    by_cases hk : k1 = k0
    · subst hk
      simp [ParameterDictionary.set, ParameterDictionary.get, hne]
    · by_cases hk1 : k1 = k
      · subst hk1
        simp [ParameterDictionary.set, ParameterDictionary.get, hk]
      · simp [ParameterDictionary.set, ParameterDictionary.get, hk, hk1, ih]

/-- A key absent from a dictionary stays absent through writes to other keys. -/
theorem ParameterDictionary.get_foldl_sets (ops : List (String × ParamValue)) (k : String)
    (T : ParamType) (hk : k ∉ ops.map Prod.fst) (d : ParameterDictionary)
    (hd : d.get k T = .error .KeyNotFound) :
    (ops.foldl (fun d e => d.set e.1 e.2) d).get k T = .error .KeyNotFound := by
  induction ops generalizing d with
  | nil => simpa using hd
  | cons e rest ih =>
    simp only [List.map_cons, List.mem_cons, not_or] at hk
    simp only [List.foldl_cons]
    apply ih hk.2
    rw [ParameterDictionary.get_set_other _ _ _ _ _ (Ne.symm hk.1)]
    exact hd

/-- C9: for every parameter dictionary `d`, key `k` and typed value `v` of type
`v.type`: after `set k v`, `get k v.type` returns `v`, also when `d` already
held an entry for `k` (of any type); `get k T` for every other type `T` fails
with TypeMismatch; and in every dictionary built from the empty one by writes
to keys other than `k`, `get k T` fails with KeyNotFound. -/
theorem dictionary_set_get (d : ParameterDictionary) (k : String) (v : ParamValue) :
    (d.set k v).get k v.type = .ok v
    ∧ (∀ v0 : ParamValue, ((d.set k v0).set k v).get k v.type = .ok v)
    ∧ (∀ T : ParamType, T ≠ v.type → (d.set k v).get k T = .error .TypeMismatch)
    ∧ (∀ (ops : List (String × ParamValue)) (T : ParamType), k ∉ ops.map Prod.fst →
        (ParameterDictionary.ofSets ops).get k T = .error .KeyNotFound) := by
  refine ⟨?_, ?_, ?_, ?_⟩
  · rw [ParameterDictionary.get_set_same]; simp
  · intro v0
    rw [ParameterDictionary.get_set_same]; simp
  · intro T hT
    rw [ParameterDictionary.get_set_same]
    simp [Ne.symm hT]
  · intro ops T hk
    exact ParameterDictionary.get_foldl_sets ops k T hk ParameterDictionary.empty rfl

/-- C9, witness: the scenario of the specification.  After
`set("sharpness", Float32, 0.6)`, `get("sharpness", Float32)` returns 0.6 and
`get("sharpness", Int32)` fails with TypeMismatch; the key "sharpness" is not
found in a dictionary in which only "width" was written. -/
theorem dictionary_set_get_witness :
    (ParameterDictionary.empty.set "sharpness" (.Float32 float32_0_6)).get "sharpness" .Float32
      = .ok (.Float32 float32_0_6)
    ∧ (ParameterDictionary.empty.set "sharpness" (.Float32 float32_0_6)).get "sharpness" .Int32
      = .error .TypeMismatch
    ∧ (ParameterDictionary.ofSets [("width", .UInt32 1920)]).get "sharpness" .Float32
      = .error .KeyNotFound :=
  ⟨(dictionary_set_get ParameterDictionary.empty "sharpness" (.Float32 float32_0_6)).1,
    (dictionary_set_get ParameterDictionary.empty "sharpness" (.Float32 float32_0_6)).2.2.1
      .Int32 (by decide),
    (dictionary_set_get ParameterDictionary.empty "sharpness" (.Float32 float32_0_6)).2.2.2
      [("width", .UInt32 1920)] .Float32 (by decide)⟩

end Nvngx
